import Mathlib

/-!
Shallow embedding of `tidal_dl_ng/helper/playlist_api.py` and
`tidal_dl_ng/helper/mpegdash_patch.py`, together with proofs about the
behaviour of the embedded functions.

Python values, exceptions and side effects are made explicit:
pure helpers become Lean functions, exceptions become `Except`
constructors, and the remote mutations performed by a call are recorded
in an explicit event trace.  The unbounded `while True` pagination loops
are embedded with an explicit fuel parameter; every theorem about them
either supplies concrete fuel or hypothesises that the fuel suffices.
-/

namespace PlaylistApi

/-- Model of a Python value as far as the playlist API manipulates one:
an integer, a string, or `None` (item ids read with `getattr(item, "id", None)`
can be any of these). -/
inductive PyVal where
  | vInt (n : Int)
  | vStr (s : String)
  | vNone
deriving DecidableEq, Repr

/-- Python `str()` on the modelled values: `str(3) = "3"`, `str(-3) = "-3"`,
`str("x") = "x"`, `str(None) = "None"`. -/
def pyStr : PyVal → String
  | .vInt n => toString n
  | .vStr s => s
  | .vNone => "None"

/-- Characters stripped by Python `int(str)` around the digits
(ASCII whitespace; the unicode cases are irrelevant to the ids handled here). -/
def isPySpace (c : Char) : Bool :=
  c = ' ' || c = '\t' || c = '\n' || c = '\x0d' || c = '\x0b' || c = '\x0c'

/-- Digit tail of a Python integer literal: after the first digit, single
underscores are allowed between digits (`int("1_2") = 12`), but not doubled,
leading or trailing. Accumulates the value of the digits read so far. -/
def pyDigitsCore : List Char → Nat → Option Nat
  | [], acc => some acc
  | '_' :: c :: rest, acc =>
      if c.isDigit then pyDigitsCore rest (acc * 10 + (c.toNat - 48)) else none
  | ['_'], _ => none
  | c :: rest, acc =>
      if c.isDigit then pyDigitsCore rest (acc * 10 + (c.toNat - 48)) else none

/-- Digit part of a Python integer literal: one digit, then `pyDigitsCore`. -/
def pyDigits : List Char → Option Nat
  | [] => none
  | c :: rest => if c.isDigit then pyDigitsCore rest (c.toNat - 48) else none

/-- Model of Python `int(s)` on a string: strip surrounding whitespace, allow
one optional sign, then digits with underscore separators; `none` models the
`ValueError` that `int` raises on anything else. -/
def pyParseInt (s : String) : Option Int :=
  let cs := (s.toList.dropWhile isPySpace).reverse.dropWhile isPySpace |>.reverse
  match cs with
  | '+' :: rest => (pyDigits rest).map Int.ofNat
  | '-' :: rest => (pyDigits rest).map (fun n => -(Int.ofNat n))
  | _ => (pyDigits cs).map Int.ofNat

/-- The `norm_id` computation of `add_track_to_playlist`:
`int(track_id)` where that succeeds, the original string otherwise
(the `try/except (TypeError, ValueError)` block). -/
def pyNormalizeId (trackId : String) : PyVal :=
  match pyParseInt trackId with
  | some n => .vInt n
  | none => .vStr trackId

/-- One element of a playlist's item list, as the API observes it: its `id`
attribute (possibly absent, modelled by `.vNone`) and whether it is a
`tidalapi.Track` instance (as opposed to a video or other media type). -/
structure Item where
  id : PyVal
  isTrack : Bool
deriving DecidableEq, Repr

/-- The exceptions the playlist API raises to its callers:
`requests.exceptions.RequestException` for transport failures and
`ValueError` for a playlist that does not resolve. -/
inductive ApiError where
  | requestException (msg : String)
  | valueError (msg : String)
deriving DecidableEq, Repr

/-- Behaviour of the low-level request hook for the one call
`session.request("POST", ...)` that `add_track_to_playlist` issues:
the call itself may raise, the response may lack `raise_for_status`,
or `raise_for_status` may pass or raise (non-2xx status). -/
inductive HookBehavior where
  | raises (msg : String)
  | respNoRfs
  | respOk
  | respBadStatus (msg : String)
deriving DecidableEq, Repr

/-- A hook behaviour that makes the guarded block raise: either the request
call itself raises or `raise_for_status` raises. -/
def HookBehavior.fails : HookBehavior → Bool
  | .raises _ => true
  | .respBadStatus _ => true
  | .respNoRfs => false
  | .respOk => false

/-- The message `str(e)` carried by a failing hook behaviour. -/
def HookBehavior.msg : HookBehavior → String
  | .raises m => m
  | .respBadStatus m => m
  | .respNoRfs => ""
  | .respOk => ""

/-- A `tidalapi.UserPlaylist` object as the API observes it: its attributes
(`id`, optionally `name` and `num_tracks`, the `_items` cache), the behaviour
of its `items(offset, limit)` method (which may depend on the cache state),
and the outcomes of its `add` and `remove_by_index` mutations, whose `.error`
case models a raised `RequestException`. -/
structure PlaylistObj where
  id : String
  name : Option String
  num_tracks : Option Nat
  cached : Option (List Item)
  itemsFn : Option (List Item) → Nat → Nat → List Item
  addOutcome : List PyVal → Except String Unit
  removeOutcome : Nat → Except String Unit

/-- The logged-in user object: `user.playlists()` either raises a
`RequestException` (`.error`) or returns a possibly-falsy value
(`none` models Python `None`, `some l` a list). -/
structure UserObj where
  playlistsCall : Except String (Option (List PlaylistObj))

/-- A `tidalapi.Session` as the API observes it: the (possibly falsy) `user`
attribute, playlist resolution `session.playlist(id)` (with `none` for a falsy
result), and the optional callable low-level `request` hook (`none` models
both an absent and a non-callable attribute, per the `callable(req)` guard). -/
structure Session where
  user : Option UserObj
  playlistResolve : String → Option PlaylistObj
  request : Option HookBehavior

/-- Remote effects a call performs, in order: the low-level hook request,
the `playlist.add([norm_id])` mutation, the `playlist.remove_by_index(i)`
mutation. -/
inductive Event where
  | requested (method : String) (path : String)
  | added (ids : List PyVal)
  | removedByIndex (index : Nat)
deriving DecidableEq, Repr

/-- Python truthiness of the `playlists` result in `get_user_playlists`:
`list(playlists) if playlists else []`. -/
def listOrEmpty : Option (List PlaylistObj) → List PlaylistObj
  | none => []
  | some l => l

/-- Embedding of `get_user_playlists(session)`: raise `ValueError` when
`session.user` is falsy, otherwise a single `session.user.playlists()` call
whose result is returned as a list, with `RequestException` propagated. -/
def get_user_playlists (s : Session) : Except ApiError (List PlaylistObj) :=
  match s.user with
  | none => .error (.valueError "User not authenticated")
  | some u =>
    match u.playlistsCall with
    | .error m => .error (.requestException m)
    | .ok ps => .ok (listOrEmpty ps)

/-- The raw pagination loop shared by `get_playlist_items` and
`remove_track_from_playlist`: fetch `items(offset, limit)`, stop on an empty
batch, append the batch, advance the offset by the raw batch length, stop when
the batch is shorter than the requested limit. `fuel` bounds the number of
iterations of the source's unbounded `while True` loop. -/
def paginateRaw (fetch : Nat → Nat → List Item) (limit : Nat) :
    Nat → Nat → List Item
  | 0, _ => []
  | fuel + 1, offset =>
    let batch := fetch offset limit
    if batch = [] then []
    else if batch.length < limit then batch
    else batch ++ paginateRaw fetch limit fuel (offset + batch.length)

/-- The pagination loop of `get_playlist_items`, with the per-batch
`isinstance(item, Track)` filter applied before accumulating, while offset
advancement and the shortfall test use the raw batch. -/
def getItemsLoop (fetch : Nat → Nat → List Item) (limit : Nat) :
    Nat → Nat → List Item
  | 0, _ => []
  | fuel + 1, offset =>
    let batch := fetch offset limit
    if batch = [] then []
    else
      let tracksBatch := batch.filter Item.isTrack
      if batch.length < limit then tracksBatch
      else tracksBatch ++ getItemsLoop fetch limit fuel (offset + batch.length)

/-- Embedding of `get_playlist_items(playlist)`: set `playlist._items = None`
(discard the local cache), then run the pagination loop with limit 100 over
the `items` method as it behaves on the cleared cache. Returns the collected
tracks together with the playlist object in its post-call state. -/
def get_playlist_items (pl : PlaylistObj) (fuel : Nat) :
    List Item × PlaylistObj :=
  let cleared : PlaylistObj := { pl with cached := none }
  (getItemsLoop (cleared.itemsFn cleared.cached) 100 fuel 0, cleared)

/-- Embedding of `add_track_to_playlist(session, playlist_id, track_id)`.
Returns the outcome together with the trace of remote effects performed. -/
def add_track_to_playlist (s : Session) (playlistId trackId : String) :
    Except ApiError Unit × List Event :=
  match s.playlistResolve playlistId with
  | none => (.error (.valueError ("Playlist " ++ playlistId ++ " not found")), [])
  | some pl =>
    let normId := pyNormalizeId trackId
    let path := "/playlists/" ++ playlistId ++ "/tracks"
    match s.request with
    | some hb =>
      if hb.fails then
        (.error (.requestException hb.msg), [.requested "POST" path])
      else
        match pl.addOutcome [normId] with
        | .ok _ => (.ok (), [.requested "POST" path, .added [normId]])
        | .error m =>
          (.error (.requestException m), [.requested "POST" path, .added [normId]])
    | none =>
      match pl.addOutcome [normId] with
      | .ok _ => (.ok (), [.added [normId]])
      | .error m => (.error (.requestException m), [.added [normId]])

/-- The `for i, item in enumerate(items_all): if str(item_id) == str(track_id):
break` search of `remove_track_from_playlist`: index of the first item whose
stringified `id` attribute equals the (string) track id. -/
def findTrackIndex (trackId : String) : List Item → Option Nat
  | [] => none
  | it :: rest =>
    if pyStr it.id = trackId then some 0
    else (findTrackIndex trackId rest).map (· + 1)

/-- Embedding of `remove_track_from_playlist(session, playlist_id, track_id)`:
resolve the playlist (else `ValueError`), clear `_items`, re-fetch the item
list with the raw pagination loop, locate the first string-matching item, and
either return silently (not found) or remove by index. -/
def remove_track_from_playlist (s : Session) (playlistId trackId : String)
    (fuel : Nat) : Except ApiError Unit × List Event :=
  match s.playlistResolve playlistId with
  | none => (.error (.valueError ("Playlist " ++ playlistId ++ " not found")), [])
  | some pl =>
    let itemsAll := paginateRaw (pl.itemsFn none) 100 fuel 0
    match findTrackIndex trackId itemsAll with
    | none => (.ok (), [])
    | some i =>
      match pl.removeOutcome i with
      | .ok _ => (.ok (), [.removedByIndex i])
      | .error m => (.error (.requestException m), [.removedByIndex i])

/-- The record returned by `get_playlist_metadata`. -/
structure Metadata where
  name : String
  item_count : Nat
  id : String
deriving DecidableEq, Repr

/-- Embedding of `get_playlist_metadata(playlist)`: a pure projection with
`hasattr` guards — a missing `name` degrades to `"Playlist <id>"`, a missing
`num_tracks` degrades to `0`, and `id` is stringified. -/
def get_playlist_metadata (pl : PlaylistObj) : Metadata :=
  { name :=
      match pl.name with
      | some n => n
      | none => "Playlist " ++ pl.id
    item_count :=
      match pl.num_tracks with
      | some c => c
      | none => 0
    id := pl.id }

end PlaylistApi

namespace MpegdashPatch

open PlaylistApi (pyParseInt)

/-- Python exceptions distinguished by the patch's `except (ValueError,
TypeError)` clauses; `otherError` stands for any other exception class. -/
inductive PyErr where
  | valueError (msg : String)
  | typeError (msg : String)
  | otherError (msg : String)
deriving DecidableEq, Repr

/-- A parsed attribute value: an integer, a string, or (for list-typed
attributes) a list of parsed elements. -/
inductive AttrVal where
  | aInt (n : Int)
  | aStr (s : String)
  | aList (elems : List AttrVal)
deriving Repr

/-- The `value_type` argument of `parse_attr_value`: the builtin `int` or
`str`, some other one-argument constructor (modelled by its behaviour on a
string), or a Python list of types. -/
inductive VType where
  | tInt
  | tStr
  | tOther (conv : String → Except PyErr AttrVal)
  | tList (elems : List VType)

/-- Python `int(s)` with its exception made explicit: `ValueError` on a
string that does not parse as an integer. -/
def pyIntExc (s : String) : Except PyErr Int :=
  match pyParseInt s with
  | some n => .ok n
  | none => .error (.valueError ("invalid literal for int() with base 10: " ++ s))

/-- Embedding of `_safe_int(value)`: `int(value)` with `ValueError`/`TypeError`
caught and turned into `None`. -/
def safe_int (value : String) : Option Int :=
  match pyIntExc value with
  | .ok n => some n
  | .error _ => none

/-- One scalar conversion `attr_type(elem)` used inside the list branch. -/
def convertScalar : VType → String → Except PyErr AttrVal
  | .tInt, v => (pyIntExc v).map .aInt
  | .tStr, v => .ok (.aStr v)
  | .tOther f, v => f v
  | .tList _, _v => .error (.typeError "list type applied to a string element")

/-- The list comprehension `[attr_type(elem) for elem in ...]`: converts each
piece, propagating the first exception. -/
def convertAll (t : VType) : List String → Except PyErr (List AttrVal)
  | [] => .ok []
  | v :: rest => do
    let a ← convertScalar t v
    let as ← convertAll t rest
    .ok (a :: as)

/-- Splitting at every comma or space character, keeping empty pieces, as
`re.split(r"[, ]", attr_val)` does. -/
def splitCommaSpaceCore : List Char → List Char → List String
  | [], acc => [String.mk acc.reverse]
  | c :: rest, acc =>
    if c = ',' || c = ' ' then String.mk acc.reverse :: splitCommaSpaceCore rest []
    else splitCommaSpaceCore rest (c :: acc)

/-- Model of `re.split(r"[, ]", s)`. -/
def splitCommaSpace (s : String) : List String :=
  splitCommaSpaceCore s.toList []

/-- An XML node as the patch observes it: its attribute map
(`xmlnode.attributes`, name to `nodeValue`). -/
structure XmlNode where
  attrs : List (String × String)

/-- Attribute lookup: `attr_name in xmlnode.attributes.keys()` plus
`xmlnode.attributes[attr_name].nodeValue`. -/
def XmlNode.lookup (node : XmlNode) (attrName : String) : Option String :=
  node.attrs.lookup attrName

/-- Embedding of `patched_parse_attr_value(xmlnode, attr_name, value_type)`:
`None` for an absent attribute; for a list type, per-element conversion with a
fall-back to strings on `ValueError`/`TypeError`; for `int`, `_safe_int` (so
`None` instead of an exception on a non-integer value); otherwise the raw
conversion with `ValueError`/`TypeError` turned into `None`. The `Except`
layer records which inputs can still raise (only exceptions outside the
caught classes, from a custom conversion). -/
def patched_parse_attr_value (node : XmlNode) (attrName : String)
    (vt : VType) : Except PyErr (Option AttrVal) :=
  match node.lookup attrName with
  | none => .ok none
  | some attrVal =>
    match vt with
    | .tList elems =>
      let attrType := elems.headD .tStr
      match convertAll attrType (splitCommaSpace attrVal) with
      | .ok vals => .ok (some (.aList vals))
      | .error (.valueError _) =>
        .ok (some (.aList ((splitCommaSpace attrVal).map .aStr)))
      | .error (.typeError _) =>
        .ok (some (.aList ((splitCommaSpace attrVal).map .aStr)))
      | .error (.otherError m) => .error (.otherError m)
    | .tInt => .ok ((safe_int attrVal).map .aInt)
    | .tStr => .ok (some (.aStr attrVal))
    | .tOther f =>
      match f attrVal with
      | .ok v => .ok (some v)
      | .error (.valueError _) => .ok none
      | .error (.typeError _) => .ok none
      | .error (.otherError m) => .error (.otherError m)

/-- Symbolic representation of the module-level `parse_attr_value` binding in
`mpegdash.utils`: the original function, or the patched wrapper built around
whatever was installed when the patch ran. -/
inductive ParserFn where
  | original
  | patchedOf (p : ParserFn)
deriving DecidableEq, Repr

/-- The module state `apply_mpegdash_patch` manipulates: the one-shot
`_patched` guard and the installed `parse_attr_value` binding. -/
structure MState where
  patched : Bool
  parse_attr_value : ParserFn
deriving DecidableEq, Repr

/-- Embedding of `apply_mpegdash_patch()`: return immediately when `_patched`
is already set; otherwise, when the `mpegdash` import succeeds, install the
wrapper around the current binding and set the guard; when the import fails
(`importOk = false`), leave the state unchanged (the `except ImportError`
branch only logs). -/
def apply_mpegdash_patch (importOk : Bool) (st : MState) : MState :=
  if st.patched then st
  else if importOk then { patched := true, parse_attr_value := .patchedOf st.parse_attr_value }
  else st

end MpegdashPatch

namespace PlaylistApi

set_option maxRecDepth 10000

/-- The search of `remove_track_from_playlist` finds nothing exactly when no
item of the list matches the track id under string comparison. -/
theorem findTrackIndex_none_iff (trackId : String) (l : List Item) :
    findTrackIndex trackId l = none ↔ ∀ it ∈ l, pyStr it.id ≠ trackId := by
  induction l with
  | nil => simp [findTrackIndex]
  | cons it rest ih =>
    by_cases h : pyStr it.id = trackId
    · simp [findTrackIndex, h]
    · simp [findTrackIndex, h, ih]

/-- A successful search returns the position of a match that is first: the
item there matches, and no earlier position matches. -/
theorem findTrackIndex_spec (trackId : String) :
    ∀ (l : List Item) (i : Nat), findTrackIndex trackId l = some i →
      (∃ it, l[i]? = some it ∧ pyStr it.id = trackId) ∧
      ∀ j, j < i → ∀ it, l[j]? = some it → pyStr it.id ≠ trackId := by
  intro l
  induction l with
  | nil => intro i h; simp [findTrackIndex] at h
  | cons it rest ih =>
    intro i h
    by_cases hm : pyStr it.id = trackId
    · simp [findTrackIndex, hm] at h
      subst h
      refine ⟨⟨it, by simp, hm⟩, ?_⟩
      intro j hj
      omega
    · simp [findTrackIndex, hm] at h
      obtain ⟨k, hk, hki⟩ := h
      subst hki
      obtain ⟨⟨it2, hget, hmatch⟩, hfirst⟩ := ih k hk
      refine ⟨⟨it2, by simpa using hget, hmatch⟩, ?_⟩
      intro j hj it3 hget3
      cases j with
      | zero =>
        simp at hget3
        subst hget3
        exact hm
      | succ j2 =>
        simp at hget3
        exact hfirst j2 (by omega) it3 hget3

/-- When some item of the list matches, the search succeeds. -/
theorem findTrackIndex_isSome_of_mem (trackId : String) (l : List Item)
    (h : ∃ it ∈ l, pyStr it.id = trackId) :
    ∃ i, findTrackIndex trackId l = some i := by
  rcases hopt : findTrackIndex trackId l with _ | i
  · rw [findTrackIndex_none_iff] at hopt
    obtain ⟨it, hmem, hmatch⟩ := h
    exact absurd hmatch (hopt it hmem)
  · exact ⟨i, rfl⟩

/-- The filtering pagination loop of `get_playlist_items` computes the
`Track`-filter of the raw pagination loop: per-batch filtering commutes with
concatenating the batches. -/
theorem getItemsLoop_eq_filter (fetch : Nat → Nat → List Item) (limit : Nat) :
    ∀ (fuel offset : Nat),
      getItemsLoop fetch limit fuel offset =
        (paginateRaw fetch limit fuel offset).filter Item.isTrack := by
  intro fuel
  induction fuel with
  | zero => intro offset; rfl
  | succ n ih =>
    intro offset
    simp only [getItemsLoop, paginateRaw]
    by_cases h1 : fetch offset limit = []
    · simp [h1]
    · by_cases h2 : (fetch offset limit).length < limit
      · simp [h1, h2]
      · simp [h1, h2, List.filter_append, ih]

/-- A minimal playlist object, used as a concrete fixture. -/
def trivialPlaylist (pid : String) : PlaylistObj :=
  { id := pid, name := none, num_tracks := none, cached := none,
    itemsFn := fun _ _ _ => [],
    addOutcome := fun _ => .ok (),
    removeOutcome := fun _ => .ok () }

/-- C1: when the session exposes a callable request hook and the guarded
request/status-check block raises (any HTTP-level failure, including a
non-2xx status), `add_track_to_playlist` raises `RequestException` and the
`playlist.add` mutation never appears in the effect trace, so no
caller-visible success signal occurs. -/
theorem c1_transport_failure_blocks_add (s : Session) (playlistId trackId : String)
    (pl : PlaylistObj) (hb : HookBehavior)
    (hres : s.playlistResolve playlistId = some pl)
    (hreq : s.request = some hb) (hfail : hb.fails = true) :
    (add_track_to_playlist s playlistId trackId).1
        = .error (.requestException hb.msg) ∧
    ∀ ids, Event.added ids ∉ (add_track_to_playlist s playlistId trackId).2 := by
  unfold add_track_to_playlist
  rw [hres, hreq]
  simp [hfail]

/-- Concrete instance of `c1_transport_failure_blocks_add`: a session whose
hook's status check raises. -/
def c1Session : Session :=
  { user := none,
    playlistResolve := fun _ => some (trivialPlaylist "p1"),
    request := some (.respBadStatus "500 Server Error") }

/-- Witness for C1 at a concrete session, playlist id and track id. -/
theorem c1_witness :
    (add_track_to_playlist c1Session "p1" "42").1
        = .error (.requestException (HookBehavior.respBadStatus "500 Server Error").msg) ∧
    ∀ ids, Event.added ids ∉ (add_track_to_playlist c1Session "p1" "42").2 :=
  c1_transport_failure_blocks_add c1Session "p1" "42" (trivialPlaylist "p1")
    (.respBadStatus "500 Server Error") rfl rfl rfl

/-- C2: with the playlist resolved, if no item of the re-fetched (paginated)
item list matches the track id under string comparison, the call returns
normally with an empty effect trace (silent success, no removal); if a match
exists, the effect trace is exactly one `remove_by_index` at the position of
the first match. -/
theorem c2_remove_silent_noop_or_first_match (s : Session)
    (playlistId trackId : String) (pl : PlaylistObj) (fuel : Nat)
    (hres : s.playlistResolve playlistId = some pl) :
    ((∀ it ∈ paginateRaw (pl.itemsFn none) 100 fuel 0, pyStr it.id ≠ trackId) →
      remove_track_from_playlist s playlistId trackId fuel = (.ok (), [])) ∧
    ((∃ it ∈ paginateRaw (pl.itemsFn none) 100 fuel 0, pyStr it.id = trackId) →
      ∃ i, findTrackIndex trackId (paginateRaw (pl.itemsFn none) 100 fuel 0) = some i ∧
        (∃ it, (paginateRaw (pl.itemsFn none) 100 fuel 0)[i]? = some it ∧
          pyStr it.id = trackId) ∧
        (∀ j, j < i → ∀ it, (paginateRaw (pl.itemsFn none) 100 fuel 0)[j]? = some it →
          pyStr it.id ≠ trackId) ∧
        (remove_track_from_playlist s playlistId trackId fuel).2
            = [.removedByIndex i]) := by
  constructor
  · intro hnone
    have h0 : findTrackIndex trackId (paginateRaw (pl.itemsFn none) 100 fuel 0) = none :=
      (findTrackIndex_none_iff _ _).mpr hnone
    unfold remove_track_from_playlist
    simp [hres, h0]
  · intro hex
    obtain ⟨i, hi⟩ := findTrackIndex_isSome_of_mem trackId _ hex
    obtain ⟨hat, hfirst⟩ := findTrackIndex_spec trackId _ i hi
    refine ⟨i, hi, hat, hfirst, ?_⟩
    unfold remove_track_from_playlist
    simp only [hres]
    rw [hi]
    cases hro : pl.removeOutcome i <;> simp [hro]

/-- Concrete playlist whose item list has two entries, neither matching the
probed id. -/
def c2Playlist : PlaylistObj :=
  { id := "p2", name := none, num_tracks := none, cached := none,
    itemsFn := fun _ offset limit =>
      (([⟨.vStr "a", true⟩, ⟨.vInt 7, true⟩] : List Item).drop offset).take limit,
    addOutcome := fun _ => .ok (),
    removeOutcome := fun _ => .ok () }

/-- Session fixture resolving every id to `c2Playlist`. -/
def c2Session : Session :=
  { user := none, playlistResolve := fun _ => some c2Playlist, request := none }

/-- Witness for C2: removing an id absent from the fetched item list is a
silent no-op. -/
theorem c2_witness :
    remove_track_from_playlist c2Session "p2" "zzz" 1 = (.ok (), []) :=
  (c2_remove_silent_noop_or_first_match c2Session "p2" "zzz" c2Playlist 1 rfl).1
    (by decide)

/-- C5: when playlist resolution yields no playlist object, both
`add_track_to_playlist` and `remove_track_from_playlist` raise `ValueError`,
a signal distinct from the transport-failure `RequestException`. -/
theorem c5_playlist_not_found_distinct_signal (s : Session)
    (playlistId trackId : String) (fuel : Nat)
    (hres : s.playlistResolve playlistId = none) :
    add_track_to_playlist s playlistId trackId
        = (.error (.valueError ("Playlist " ++ playlistId ++ " not found")), []) ∧
    remove_track_from_playlist s playlistId trackId fuel
        = (.error (.valueError ("Playlist " ++ playlistId ++ " not found")), []) ∧
    ∀ m m2, (ApiError.valueError m) ≠ ApiError.requestException m2 := by
  refine ⟨?_, ?_, ?_⟩
  · unfold add_track_to_playlist
    rw [hres]
  · unfold remove_track_from_playlist
    rw [hres]
  · intro m m2 h
    exact ApiError.noConfusion h

/-- Session fixture resolving no playlist id. -/
def c5Session : Session :=
  { user := none, playlistResolve := fun _ => none, request := none }

/-- Witness for C5 at a concrete session and ids. -/
theorem c5_witness :
    add_track_to_playlist c5Session "p9" "1"
        = (.error (.valueError ("Playlist " ++ "p9" ++ " not found")), []) ∧
    remove_track_from_playlist c5Session "p9" "1" 0
        = (.error (.valueError ("Playlist " ++ "p9" ++ " not found")), []) ∧
    ∀ m m2, (ApiError.valueError m) ≠ ApiError.requestException m2 :=
  c5_playlist_not_found_distinct_signal c5Session "p9" "1" 0 rfl

/-- C6: with the playlist resolved and the hook absent or succeeding, the add
mutation receives exactly the normalized id — the integer form when the track
id parses as a Python integer, the original string otherwise — normalization
itself never raises, and the call succeeds whenever the mutation does. -/
theorem c6_track_id_normalization (s : Session) (playlistId trackId : String)
    (pl : PlaylistObj) (hres : s.playlistResolve playlistId = some pl)
    (hhook : ∀ hb, s.request = some hb → hb.fails = false) :
    Event.added [pyNormalizeId trackId] ∈ (add_track_to_playlist s playlistId trackId).2 ∧
    (∀ n, pyParseInt trackId = some n → pyNormalizeId trackId = .vInt n) ∧
    (pyParseInt trackId = none → pyNormalizeId trackId = .vStr trackId) ∧
    (pl.addOutcome [pyNormalizeId trackId] = .ok () →
      (add_track_to_playlist s playlistId trackId).1 = .ok ()) := by
  have hmain :
      Event.added [pyNormalizeId trackId] ∈ (add_track_to_playlist s playlistId trackId).2 ∧
      (pl.addOutcome [pyNormalizeId trackId] = .ok () →
        (add_track_to_playlist s playlistId trackId).1 = .ok ()) := by
    unfold add_track_to_playlist
    rw [hres]
    rcases hreq : s.request with _ | hb
    · cases hao : pl.addOutcome [pyNormalizeId trackId] <;> simp [hao]
    · have hf := hhook hb hreq
      cases hao : pl.addOutcome [pyNormalizeId trackId] <;> simp [hf, hao]
  refine ⟨hmain.1, ?_, ?_, hmain.2⟩
  · intro n hn
    simp [pyNormalizeId, hn]
  · intro hn
    simp [pyNormalizeId, hn]

/-- Session fixture with no hook, resolving every id to a trivial playlist. -/
def c6Session : Session :=
  { user := none,
    playlistResolve := fun _ => some (trivialPlaylist "p6"),
    request := none }

/-- Witness for C6 at a concrete session and a numeric track id. -/
theorem c6_witness :
    Event.added [pyNormalizeId "12345"] ∈ (add_track_to_playlist c6Session "p6" "12345").2 ∧
    (∀ n, pyParseInt "12345" = some n → pyNormalizeId "12345" = .vInt n) ∧
    (pyParseInt "12345" = none → pyNormalizeId "12345" = .vStr "12345") ∧
    ((trivialPlaylist "p6").addOutcome [pyNormalizeId "12345"] = .ok () →
      (add_track_to_playlist c6Session "p6" "12345").1 = .ok ()) :=
  c6_track_id_normalization c6Session "p6" "12345" (trivialPlaylist "p6") rfl
    (fun _ h => Option.noConfusion h)

/-- C7: `get_playlist_items` ignores whatever `_items` cache the playlist
carries (the result is the same for every initial cache value), leaves the
cache cleared, and returns exactly the `Track`-typed entries of the freshly
paginated item list, in the order the pages delivered them. -/
theorem c7_fresh_fetch_tracks_only (pl : PlaylistObj) (c : Option (List Item))
    (fuel : Nat) :
    (get_playlist_items { pl with cached := c } fuel).1
        = (get_playlist_items pl fuel).1 ∧
    (get_playlist_items pl fuel).2.cached = none ∧
    (get_playlist_items pl fuel).1
        = (paginateRaw (pl.itemsFn none) 100 fuel 0).filter Item.isTrack := by
  refine ⟨rfl, rfl, ?_⟩
  simp [get_playlist_items, getItemsLoop_eq_filter]

/-- C8: `get_playlist_metadata` is a pure projection to `{name, item_count,
id}`; a missing `name` attribute degrades to `"Playlist <id>"`, a missing
`num_tracks` attribute degrades to `0`, and the projection is total — it
never raises on a playlist missing either attribute. -/
theorem c8_metadata_projection (pl : PlaylistObj) :
    (get_playlist_metadata pl).id = pl.id ∧
    (∀ n, pl.name = some n → (get_playlist_metadata pl).name = n) ∧
    (pl.name = none → (get_playlist_metadata pl).name = "Playlist " ++ pl.id) ∧
    (∀ c, pl.num_tracks = some c → (get_playlist_metadata pl).item_count = c) ∧
    (pl.num_tracks = none → (get_playlist_metadata pl).item_count = 0) := by
  refine ⟨rfl, ?_, ?_, ?_, ?_⟩
  · intro n hn
    simp [get_playlist_metadata, hn]
  · intro hn
    simp [get_playlist_metadata, hn]
  · intro c hc
    simp [get_playlist_metadata, hc]
  · intro hc
    simp [get_playlist_metadata, hc]

/-- Witness for C8 at a playlist lacking both the `name` and the `num_tracks`
attribute. -/
theorem c8_witness :
    (get_playlist_metadata (trivialPlaylist "p8")).name
        = "Playlist " ++ (trivialPlaylist "p8").id ∧
    (get_playlist_metadata (trivialPlaylist "p8")).item_count = 0 :=
  ⟨(c8_metadata_projection (trivialPlaylist "p8")).2.2.1 rfl,
   (c8_metadata_projection (trivialPlaylist "p8")).2.2.2.2 rfl⟩

/-- Seventy-five distinct track items. -/
def src75 : List Item := (List.range 75).map (fun i => ⟨.vInt i, true⟩)

/-- A playlist backed by 75 items whose server caps pages at 50:
`items(offset, limit)` serves `min(limit, 50)` items starting at `offset`,
so the item list arrives in pages of 50 then 25, with a declared total
(`num_tracks`) of 75. -/
def pl75 : PlaylistObj :=
  { id := "p75", name := none, num_tracks := some 75, cached := none,
    itemsFn := fun _ offset limit => (src75.drop offset).take (min limit 50),
    addOutcome := fun _ => .ok (),
    removeOutcome := fun _ => .ok () }

/-- C3 counterexample: on a source with declared total 75 serving pages of 50
then 25, `get_playlist_items` returns 50 items, not 75 — the first page falls
short of the fixed requested limit of 100, which ends pagination; the
declared total is never consulted. -/
theorem c3_counterexample :
    (get_playlist_items pl75 76).1.length = 50 ∧
    ¬ (get_playlist_items pl75 76).1.length = 75 := by
  constructor <;> decide

/-- Four hundred and fifty distinct track items. -/
def src450 : List Item := (List.range 450).map (fun i => ⟨.vInt i, true⟩)

/-- A playlist backed by 450 items whose server serves up to 300 items per
page regardless of the requested limit: pages of 300 then 150. -/
def pl450 : PlaylistObj :=
  { id := "p450", name := none, num_tracks := some 450, cached := none,
    itemsFn := fun _ offset _limit => (src450.drop offset).take 300,
    addOutcome := fun _ => .ok (),
    removeOutcome := fun _ => .ok () }

/-- C3 amended: pagination exhaustion in `get_playlist_items` is page-size
shortfall against the fixed requested limit of 100 (or an empty page) only —
the declared total is never consulted. For a total of 75 served in pages of
50 then 25 it therefore returns only the 50 items of the first page, while
for a total of 450 served in pages of 300 then 150 it returns all 450 (every
page reaches the requested limit until the empty page). -/
theorem c3_amended_pagination :
    (get_playlist_items pl75 76).1.length = 50 ∧
    (get_playlist_items pl450 5).1.length = 450 := by
  constructor <;> decide

/-- A user playlist collection of 75 minimal playlist objects. -/
def allPlaylists75 : List PlaylistObj :=
  (List.range 75).map (fun i => trivialPlaylist (toString i))

/-- A session whose single `user.playlists()` call yields only the first page
(50) of the user's 75 playlists. -/
def c4Session : Session :=
  { user := some ⟨.ok (some (allPlaylists75.take 50))⟩,
    playlistResolve := fun _ => none,
    request := none }

/-- C4 counterexample: `get_user_playlists` performs no pagination of its own
— it returns the result of the single `user.playlists()` call unchanged, so
for a session whose call yields only the first 50 of 75 playlists it returns
50 playlists, not all 75. -/
theorem c4_counterexample :
    get_user_playlists c4Session = .ok (allPlaylists75.take 50) ∧
    (allPlaylists75.take 50).length = 50 ∧
    allPlaylists75.length = 75 := by
  refine ⟨rfl, by decide, by decide⟩

/-- C4 amended: `get_user_playlists` raises `ValueError` when `session.user`
is falsy and otherwise issues exactly one `user.playlists()` call, returning
its value as a list (empty for a falsy result) and propagating
`RequestException`; any pagination is the session's concern, not this
function's. -/
theorem c4_amended_single_call (s : Session) :
    (s.user = none →
      get_user_playlists s = .error (.valueError "User not authenticated")) ∧
    (∀ u m, s.user = some u → u.playlistsCall = .error m →
      get_user_playlists s = .error (.requestException m)) ∧
    (∀ u ps, s.user = some u → u.playlistsCall = .ok ps →
      get_user_playlists s = .ok (listOrEmpty ps)) := by
  refine ⟨?_, ?_, ?_⟩
  · intro h
    simp [get_user_playlists, h]
  · intro u m hu hc
    simp [get_user_playlists, hu, hc]
  · intro u ps hu hc
    simp [get_user_playlists, hu, hc]

/-- Witness for the amended C4 at the concrete first-page-only session. -/
theorem c4_witness :
    get_user_playlists c4Session = .ok (listOrEmpty (some (allPlaylists75.take 50))) :=
  (c4_amended_single_call c4Session).2.2 ⟨.ok (some (allPlaylists75.take 50))⟩
    (some (allPlaylists75.take 50)) rfl rfl

end PlaylistApi

namespace MpegdashPatch

/-- C9: for integer-typed attributes, `patched_parse_attr_value` is total —
an attribute absent from the node yields `None`, a present attribute whose
value does not parse as a Python integer yields `None` instead of an
exception, and no input makes the integer branch raise. -/
theorem c9_int_attr_parsing_total (node : XmlNode) (attrName : String) :
    (node.lookup attrName = none →
      patched_parse_attr_value node attrName .tInt = .ok none) ∧
    (∀ v, node.lookup attrName = some v → PlaylistApi.pyParseInt v = none →
      patched_parse_attr_value node attrName .tInt = .ok none) ∧
    (∃ r, patched_parse_attr_value node attrName .tInt = .ok r) := by
  refine ⟨?_, ?_, ?_⟩
  · intro h
    simp [patched_parse_attr_value, h]
  · intro v hv hp
    simp [patched_parse_attr_value, hv, safe_int, pyIntExc, hp]
  · rcases h : node.lookup attrName with _ | v
    · exact ⟨none, by simp [patched_parse_attr_value, h]⟩
    · exact ⟨(safe_int v).map .aInt, by simp [patched_parse_attr_value, h]⟩

/-- An `AdaptationSet` node carrying the string `"main"` in its integer-typed
`id` and `group` attributes, as in the TIDAL manifests that motivated the
patch. -/
def c9Node : XmlNode := ⟨[("id", "main"), ("group", "main")]⟩

/-- Witness for C9: parsing the integer-typed `id` attribute holding `"main"`
yields `None` rather than an exception. -/
theorem c9_witness :
    patched_parse_attr_value c9Node "id" .tInt = .ok none :=
  (c9_int_attr_parsing_total c9Node "id").2.1 "main" rfl (by decide)

/-- C10: `apply_mpegdash_patch` is idempotent — with the import succeeding,
the first call from the fresh module state installs the wrapper and sets the
one-shot guard, a second call leaves any state unchanged, and after any
`n ≥ 1` calls the module state (hence the installed parser) equals the state
after one call, so the patch never composes with itself. -/
theorem c10_patch_idempotent :
    (apply_mpegdash_patch true ⟨false, .original⟩ = ⟨true, .patchedOf .original⟩) ∧
    (∀ ok st, apply_mpegdash_patch ok (apply_mpegdash_patch ok st)
        = apply_mpegdash_patch ok st) ∧
    (∀ ok st (n : Nat), 1 ≤ n →
      (apply_mpegdash_patch ok)^[n] st = apply_mpegdash_patch ok st) := by
  have hid : ∀ ok st, apply_mpegdash_patch ok (apply_mpegdash_patch ok st)
      = apply_mpegdash_patch ok st := by
    intro ok st
    by_cases hp : st.patched
    · simp [apply_mpegdash_patch, hp]
    · cases ok
      · simp [apply_mpegdash_patch, hp]
      · simp [apply_mpegdash_patch, hp]
  refine ⟨rfl, hid, ?_⟩
  intro ok st n hn
  induction n with
  | zero => omega
  | succ m ih =>
    rcases Nat.eq_zero_or_pos m with h0 | hpos
    · subst h0
      simp
    · rw [Function.iterate_succ_apply', ih hpos, hid]

/-- Witness for C10: three successive calls from the fresh state land in the
same state as one call. -/
theorem c10_witness :
    (apply_mpegdash_patch true)^[3] ⟨false, .original⟩
        = apply_mpegdash_patch true ⟨false, .original⟩ :=
  c10_patch_idempotent.2.2 true ⟨false, .original⟩ 3 (by decide)

end MpegdashPatch
